import Mathlib

/-!
Verification of the static-evaluation module of SmallfishNPS
(src/src/evaluate.cpp), a Stockfish-derived engine in which
`Evaluation<T>::value()` delegates wholly to the neural evaluator:
it clamps `pos.nnue_output()` from above at 30000, reorients the
White-relative value to the side to move and adds the tempo bonus.
The classical term evaluators are declared but never defined or
invoked, and the trace path renders an all-zero score table.

The board snapshot, the thread object and the constants `Tempo` and
`PawnValueEg` live in headers that are not part of this repository
snapshot; they are modelled from the specification where a claim
needs them, and each such definition is marked in its doc comment.
-/

namespace Smallfish

/-- The two colors, as in the engine's `Color` enum (`WHITE`, `BLACK`). -/
inductive Color where
  | white
  | black
deriving DecidableEq, Repr

/-- Color swap, used to speak about the color-mirrored counterpart of a
position and about "the other side" in the threat scenario. -/
def Color.flip : Color → Color
  | .white => .black
  | .black => .white

/-- Piece types as in the engine's `PieceType` enum
(`NO_PIECE_TYPE, PAWN, KNIGHT, BISHOP, ROOK, QUEEN, KING`). -/
inductive PieceType where
  | noPieceType
  | pawn
  | knight
  | bishop
  | rook
  | queen
  | king
deriving DecidableEq, Repr

/-- Modelled from the spec: a tapered score is an (mg, eg) integer pair
("**Score**: an (mg, eg) integer pair representing a phase-tapered
contribution"). In the source, `Score` and `make_score` come from a
header absent from src/; `S(mg, eg)` abbreviates `make_score(mg, eg)`. -/
structure Score where
  mg : Int
  eg : Int
deriving DecidableEq, Repr

/-- The zero score, `SCORE_ZERO` in the source. -/
def SCORE_ZERO : Score := ⟨0, 0⟩

/-- Modelled from the spec: a placed piece of the external board
collaborator — color, piece type, and a square given by file and rank
coordinates (0..7), rank 0 being White's back rank. -/
structure PlacedPiece where
  color : Color
  pt : PieceType
  file : Int
  rank : Int
deriving DecidableEq, Repr

/-- Modelled from the spec: the board snapshot's piece placement, a
finite collection of placed pieces. -/
abbrev Board := List PlacedPiece

/-- Modelled from the spec: the read-only board snapshot consumed by the
evaluator ("side to move; in-check status; per-square piece identity; ...").
`checkers` is the truth value of the source's `pos.checkers()` (nonempty
bitboard of pieces giving check to the side to move) and `nnueOutput` is
the White-relative integer returned by `pos.nnue_output()` from the
external neural evaluator. -/
structure Position where
  board : Board
  sideToMove : Color
  checkers : Bool
  nnueOutput : Int
deriving DecidableEq, Repr

/-- Modelled from the spec: the fixed tempo bonus credited to the side to
move ("**Tempo**: a fixed bonus credited to the side to move"). Its numeric
value comes from a header absent from src/; the conventional upstream value
28 is used. No claim depends on the numeric value itself. -/
def Tempo : Int := 28

/-- The clamp applied by `Evaluation<T>::value()` to the neural output:
`v = std::min(v, Value(30000))` (src/src/evaluate.cpp:236-237). -/
def clampedValue (p : Position) : Int :=
  min p.nnueOutput 30000

/-- Embedding of `Evaluation<T>::value()` (src/src/evaluate.cpp:231-240):
read the neural output, clamp it from above at 30000, reorient the
White-relative value to the side to move, and add `Tempo`. The template
parameter `T` is irrelevant here: the function body contains no
`Trace::add` call for either instantiation. The entry `assert(!pos.checkers())`
is modelled separately by `valueAsserted`. -/
def value (p : Position) : Int :=
  (if p.sideToMove = Color.white then clampedValue p else -(clampedValue p)) + Tempo

/-- The debug assertion `assert(!pos.checkers())` at the head of
`Evaluation<T>::value()` (src/src/evaluate.cpp:234), modelled as the
error branch of the numeric path: `none` exactly when the precondition
is violated. -/
def valueAsserted (p : Position) : Option Int :=
  if p.checkers then none else some (value p)

/-- Embedding of `Eval::evaluate` (src/src/evaluate.cpp:248-250):
`return Evaluation<NO_TRACE>(pos).value();`. -/
def evaluate (p : Position) : Int :=
  value p

/-- Modelled from the spec: the per-search-thread state reachable through
`pos.this_thread()`. `contempt` is the dynamic contempt score the trace
path resets; `otherData` stands for every other field of the thread
object, which this module never touches. -/
structure ThreadState where
  contempt : Score
  otherData : Int
deriving DecidableEq, Repr

/-- The trace score table `Trace::scores[TERM_NB][COLOR_NB]`
(src/src/evaluate.cpp:46), indexed by term (TERM_NB = 16: the first 8
indices are reserved for piece types, then MATERIAL = 8 up to TOTAL = 15)
and by color. -/
abbrev ScoresTable := Fin 16 → Color → Score

/-- The `MATERIAL` term index of the trace table (src/src/evaluate.cpp:43). -/
def MATERIAL : Fin 16 := ⟨8, by decide⟩

/-- The `IMBALANCE` term index of the trace table. -/
def IMBALANCE : Fin 16 := ⟨9, by decide⟩

/-- The `MOBILITY` term index of the trace table. -/
def MOBILITY : Fin 16 := ⟨10, by decide⟩

/-- The `THREAT` term index of the trace table. -/
def THREAT : Fin 16 := ⟨11, by decide⟩

/-- The `PASSED` term index of the trace table. -/
def PASSED : Fin 16 := ⟨12, by decide⟩

/-- The `SPACE` term index of the trace table. -/
def SPACE : Fin 16 := ⟨13, by decide⟩

/-- The `WINNABLE` term index of the trace table. -/
def WINNABLE : Fin 16 := ⟨14, by decide⟩

/-- The `TOTAL` term index of the trace table. -/
def TOTAL : Fin 16 := ⟨15, by decide⟩

/-- The all-zero score table, the result of
`std::memset(scores, 0, sizeof(scores))` (src/src/evaluate.cpp:262). -/
def zeroScores : ScoresTable := fun _ _ => SCORE_ZERO

/-- The literal returned by `Eval::trace` for an in-check position
(src/src/evaluate.cpp:260). -/
def inCheckMessage : String := "Total evaluation: none (in check)"

/-- Modelled from the spec: rendering of one side's (mg, eg) score cell of
the report. The source divides by `PawnValueEg` (a constant from a header
absent from src/) and formats as a two-decimal double; that floating-point
formatting is abstracted to plain integer rendering, which no claim
inspects. -/
def scoreCell (sc : Score) : String :=
  toString sc.mg ++ " " ++ toString sc.eg

/-- Difference of two scores, `operator-` of the score algebra, used by the
report for the White-minus-Black column. -/
def Score.sub (a b : Score) : Score :=
  ⟨a.mg - b.mg, a.eg - b.eg⟩

/-- Embedding of `Trace::operator<<(std::ostream&, Term)`
(src/src/evaluate.cpp:65-74): synthetic rows (MATERIAL, IMBALANCE,
WINNABLE, TOTAL) omit the per-side columns, every row ends with the
White-minus-Black difference. -/
def termRow (s : ScoresTable) (t : Fin 16) : String :=
  (if t = MATERIAL ∨ t = IMBALANCE ∨ t = WINNABLE ∨ t = TOTAL then
    " ----  ---- |  ----  ----"
  else
    scoreCell (s t Color.white) ++ " | " ++ scoreCell (s t Color.black))
  ++ " | " ++ scoreCell (Score.sub (s t Color.white) (s t Color.black)) ++ "\n"

/-- The `PAWN` row index of the trace table (piece-type indices occupy 1..6). -/
def PAWNT : Fin 16 := ⟨1, by decide⟩

/-- The `KNIGHT` row index of the trace table. -/
def KNIGHTT : Fin 16 := ⟨2, by decide⟩

/-- The `BISHOP` row index of the trace table. -/
def BISHOPT : Fin 16 := ⟨3, by decide⟩

/-- The `ROOK` row index of the trace table. -/
def ROOKT : Fin 16 := ⟨4, by decide⟩

/-- The `QUEEN` row index of the trace table. -/
def QUEENT : Fin 16 := ⟨5, by decide⟩

/-- The `KING` row index of the trace table. -/
def KINGT : Fin 16 := ⟨6, by decide⟩

/-- Embedding of the report body built by `Eval::trace`
(src/src/evaluate.cpp:270-291): the fixed header, the thirteen labelled
term rows, and the final White-relative evaluation line. -/
def renderReport (s : ScoresTable) (v : Int) : String :=
  "     Term    |    White    |    Black    |    Total   \n"
  ++ "             |   MG    EG  |   MG    EG  |   MG    EG \n"
  ++ " ------------+-------------+-------------+------------\n"
  ++ "    Material | " ++ termRow s MATERIAL
  ++ "   Imbalance | " ++ termRow s IMBALANCE
  ++ "       Pawns | " ++ termRow s PAWNT
  ++ "     Knights | " ++ termRow s KNIGHTT
  ++ "     Bishops | " ++ termRow s BISHOPT
  ++ "       Rooks | " ++ termRow s ROOKT
  ++ "      Queens | " ++ termRow s QUEENT
  ++ "    Mobility | " ++ termRow s MOBILITY
  ++ " King safety | " ++ termRow s KINGT
  ++ "     Threats | " ++ termRow s THREAT
  ++ "      Passed | " ++ termRow s PASSED
  ++ "       Space | " ++ termRow s SPACE
  ++ "    Winnable | " ++ termRow s WINNABLE
  ++ " ------------+-------------+-------------+------------\n"
  ++ "       Total | " ++ termRow s TOTAL
  ++ "\nFinal evaluation: " ++ toString v ++ " (white side)\n"

/-- Embedding of `Eval::evaluate` with its effect on the thread state made
explicit: the function body only constructs `Evaluation<NO_TRACE>(pos)` and
calls `value()`, which reads `pos` and writes nothing, so the thread state
is returned unchanged. -/
def evaluateRun (p : Position) (t : ThreadState) : Int × ThreadState :=
  (evaluate p, t)

/-- Embedding of `Eval::trace` (src/src/evaluate.cpp:257-294) with its
effects on the thread state and the `Trace::scores` table made explicit.
In check: return the fixed literal, touching nothing. Otherwise: zero the
score table (`std::memset`), reset the calling thread's dynamic contempt
to `SCORE_ZERO`, evaluate with tracing enabled — `Evaluation<TRACE>::value()`
contains no `Trace::add` call, so the table stays zero — reorient the value
to White's point of view and render the report. -/
def traceRun (p : Position) (t : ThreadState) (s : ScoresTable) :
    String × ThreadState × ScoresTable :=
  if p.checkers then
    (inCheckMessage, t, s)
  else
    let s1 : ScoresTable := zeroScores
    let t1 : ThreadState := { t with contempt := SCORE_ZERO }
    let v : Int := value p
    let vw : Int := if p.sideToMove = Color.white then v else -v
    (renderReport s1 vw, t1, s1)

/-- The `ThreatByRook[PIECE_TYPE_NB]` bonus table
(src/src/evaluate.cpp:136-138): per attacked piece type,
`{ S(0, 0), S(3, 46), S(37, 68), S(42, 60), S(0, 38), S(58, 41) }`,
remaining entries value-initialized to zero. -/
def ThreatByRook : PieceType → Score
  | .noPieceType => ⟨0, 0⟩
  | .pawn => ⟨3, 46⟩
  | .knight => ⟨37, 68⟩
  | .bishop => ⟨42, 60⟩
  | .rook => ⟨0, 38⟩
  | .queen => ⟨58, 41⟩
  | .king => ⟨0, 0⟩

/-- Modelled from the spec: whether some piece of the board stands on the
square with the given file and rank, part of the external board
collaborator's occupancy information. -/
def occupiedAt (b : Board) (f r : Int) : Bool :=
  b.any fun pc => pc.file = f && pc.rank = r

/-- Modelled from the spec: the list of the 64 board squares as
(file, rank) coordinate pairs, used to test sliding paths for blockers. -/
def allSquares : List (Int × Int) :=
  (List.range 8).flatMap fun f => (List.range 8).map fun r => ((f : Int), (r : Int))

/-- Strict betweenness on a coordinate axis, used for blocker tests on
sliding-piece paths. -/
def strictlyBetween (a b x : Int) : Bool :=
  (a < x && x < b) || (b < x && x < a)

/-- Modelled from the spec: whether the square (f, r) lies strictly
between (f1, r1) and (f2, r2) on a common rank, file or diagonal — the
squares a sliding move from the first to the second square must cross. -/
def onSegment (f1 r1 f2 r2 f r : Int) : Bool :=
  (f = f1 && f = f2 && strictlyBetween r1 r2 r)
  || (r = r1 && r = r2 && strictlyBetween f1 f2 f)
  || (f2 - f1 = r2 - r1 && f - f1 = r - r1 && strictlyBetween f1 f2 f)
  || (f2 - f1 = r1 - r2 && f - f1 = r1 - r && strictlyBetween f1 f2 f)

/-- Modelled from the spec: no piece blocks the sliding path strictly
between the two squares. -/
def clearPath (b : Board) (f1 r1 f2 r2 : Int) : Bool :=
  allSquares.all fun sq => !(onSegment f1 r1 f2 r2 sq.1 sq.2 && occupiedAt b sq.1 sq.2)

/-- Modelled from the spec: the forward direction of a pawn of the given
color (White pawns move toward higher ranks). -/
def pawnDir : Color → Int
  | .white => 1
  | .black => -1

/-- Modelled from the spec: whether the given placed piece attacks the
square (f, r) on board b, under the standard movement rules of the game
(the board collaborator's "function computing a piece's attack bitboard
from a given square and occupancy"). -/
def pieceAttacksSq (b : Board) (pc : PlacedPiece) (f r : Int) : Bool :=
  let df := f - pc.file
  let dr := r - pc.rank
  match pc.pt with
  | .noPieceType => false
  | .pawn => (dr = pawnDir pc.color) && (df = 1 || df = -1)
  | .knight =>
      (df * df = 1 && dr * dr = 4) || (df * df = 4 && dr * dr = 1)
  | .bishop =>
      (df = dr || df = -dr) && !(df = 0 && dr = 0)
      && clearPath b pc.file pc.rank f r
  | .rook =>
      (df = 0 || dr = 0) && !(df = 0 && dr = 0)
      && clearPath b pc.file pc.rank f r
  | .queen =>
      (df = dr || df = -dr || df = 0 || dr = 0) && !(df = 0 && dr = 0)
      && clearPath b pc.file pc.rank f r
  | .king =>
      (df * df ≤ 1 && dr * dr ≤ 1) && !(df = 0 && dr = 0)

/-- Modelled from the spec: the square (f, r) is defended by color c —
some piece of color c standing elsewhere attacks it. -/
def defendedBy (b : Board) (c : Color) (f r : Int) : Bool :=
  b.any fun pc =>
    pc.color = c && pieceAttacksSq b pc f r && !(pc.file = f && pc.rank = r)

/-- Modelled from the spec's hanging-queen scenario: some rook of color
`us` attacks an enemy queen that no other enemy piece defends
("a position where an undefended enemy queen is attacked by a rook"). -/
def hangingQueenFor (us : Color) (p : Position) : Bool :=
  p.board.any fun rk =>
    rk.color = us && rk.pt = PieceType.rook &&
    p.board.any fun qn =>
      qn.color = us.flip && qn.pt = PieceType.queen &&
      pieceAttacksSq p.board rk qn.file qn.rank &&
      !(defendedBy p.board us.flip qn.file qn.rank)

/-- Modelled from the spec: the color-and-rank mirror of a board — every
piece changes color and its rank is reflected (rank becomes 7 - rank),
files unchanged. -/
def mirrorBoard (b : Board) : Board :=
  b.map fun pc => { pc with color := pc.color.flip, rank := 7 - pc.rank }

/-- Modelled from the spec: p2 is the color-and-rank-mirrored counterpart
of p1 — the board is mirrored, the side to move swaps (the mirror exchanges
the colors, hence whose turn it is), and the in-check status is preserved
(mirroring preserves attack relations). -/
def isMirrorPair (p1 p2 : Position) : Prop :=
  p2.board = mirrorBoard p1.board
  ∧ p2.sideToMove = p1.sideToMove.flip
  ∧ p2.checkers = p1.checkers

/-- A quiet two-king position with neural output 0, White to move. -/
def posKings : Position :=
  { board := [⟨Color.white, PieceType.king, 4, 0⟩, ⟨Color.black, PieceType.king, 4, 7⟩]
    sideToMove := Color.white
    checkers := false
    nnueOutput := 0 }

/-- The same two-king board with a large negative neural output, used to
exercise the one-sided clamp. -/
def posNegBig : Position :=
  { posKings with nnueOutput := -30001 }

/-- The two-king board with a small positive neural output, Black to move. -/
def posBlack131 : Position :=
  { posKings with sideToMove := Color.black, nnueOutput := 131 }

/-- A position with the White king in check from the adjacent Black queen,
White to move. -/
def posInCheck : Position :=
  { board := [⟨Color.white, PieceType.king, 4, 0⟩,
              ⟨Color.black, PieceType.queen, 4, 1⟩,
              ⟨Color.black, PieceType.king, 4, 7⟩]
    sideToMove := Color.white
    checkers := true
    nnueOutput := 0 }

/-- A not-in-check position with neural output 100, White to move, used
for the mirror-symmetry claim. -/
def posMirrorSrc : Position :=
  { board := [⟨Color.white, PieceType.king, 4, 0⟩, ⟨Color.black, PieceType.king, 4, 7⟩]
    sideToMove := Color.white
    checkers := false
    nnueOutput := 100 }

/-- The color-and-rank mirror of posMirrorSrc, with the White-relative
neural output negated accordingly. -/
def posMirrorDst : Position :=
  { board := mirrorBoard posMirrorSrc.board
    sideToMove := Color.black
    checkers := false
    nnueOutput := -100 }

/-- A hanging-queen position: White rook a1 attacks the Black queen a8
along the open a-file; the Black king h8 does not defend a8; White to
move and not in check. -/
def posHangingQueen : Position :=
  { board := [⟨Color.white, PieceType.rook, 0, 0⟩,
              ⟨Color.white, PieceType.king, 4, 0⟩,
              ⟨Color.black, PieceType.queen, 0, 7⟩,
              ⟨Color.black, PieceType.king, 7, 7⟩]
    sideToMove := Color.white
    checkers := false
    nnueOutput := 0 }

/-- A sample thread state with a nonzero contempt and nonzero other data,
used to observe exactly which parts the trace path mutates. -/
def threadSample : ThreadState := ⟨⟨7, -3⟩, 42⟩

/-- A second literal spelling of the two-king position, field-for-field
equal to posKings, used to state determinism across two runs. -/
def posKingsCopy : Position :=
  { board := [⟨Color.white, PieceType.king, 4, 0⟩, ⟨Color.black, PieceType.king, 4, 7⟩]
    sideToMove := Color.white
    checkers := false
    nnueOutput := 0 }

/-- C1 (counterexample): the clamp in the source is one-sided —
`v = std::min(v, Value(30000))` imposes no lower bound — so at the
not-in-check position posNegBig, whose neural output is -30001, the
clamped pre-tempo value has absolute value 30001 > 30000, refuting the
claim that the pre-tempo result's absolute value never exceeds the bound. -/
theorem C1_counterexample :
    posNegBig.checkers = false ∧ 30000 < |clampedValue posNegBig| := by
  exact ⟨rfl, by decide⟩

/-- C1 (amended): for every not-in-check position the clamp bounds the
pre-tempo internal value from above only — the clamped value never exceeds
30000, but it has no lower bound. -/
theorem C1_clamp_above (p : Position) (h : p.checkers = false) :
    clampedValue p ≤ 30000 :=
  min_le_right _ _

/-- C1 (witness): the amended upper-clamp bound, instantiated at the
concrete two-king position. -/
theorem C1_clamp_above_witness :
    posKings.checkers = false ∧ clampedValue posKings ≤ 30000 :=
  ⟨rfl, C1_clamp_above posKings rfl⟩

/-- C2: for every not-in-check position, evaluate returns the clamped
White-relative internal value reoriented to the side to move plus the
fixed tempo bonus: (White to move ? v : -v) + Tempo with
v = min(nnue_output, 30000). -/
theorem C2_evaluate_formula (p : Position) (h : p.checkers = false) :
    evaluate p =
      (if p.sideToMove = Color.white then min p.nnueOutput 30000
       else -(min p.nnueOutput 30000)) + Tempo :=
  rfl

/-- C2 (witness): the evaluate formula at the concrete Black-to-move
position with neural output 131. -/
theorem C2_evaluate_formula_witness :
    posBlack131.checkers = false ∧
      evaluate posBlack131 =
        (if posBlack131.sideToMove = Color.white then min posBlack131.nnueOutput 30000
         else -(min posBlack131.nnueOutput 30000)) + Tempo :=
  ⟨rfl, C2_evaluate_formula posBlack131 rfl⟩

/-- C3: on an in-check position, trace returns exactly the literal
"Total evaluation: none (in check)" and performs no computation: the
thread state and the score table are returned untouched (no term scores
are written and the contempt reset is not reached). -/
theorem C3_trace_in_check (p : Position) (t : ThreadState) (s : ScoresTable)
    (h : p.checkers = true) :
    traceRun p t s = ("Total evaluation: none (in check)", t, s) := by
  simp [traceRun, h, inCheckMessage]

/-- C3 (witness): the in-check early return at the concrete position with
the White king in check, a nonzero thread state and the zero table. -/
theorem C3_trace_in_check_witness :
    posInCheck.checkers = true ∧
      traceRun posInCheck threadSample zeroScores =
        ("Total evaluation: none (in check)", threadSample, zeroScores) :=
  ⟨rfl, C3_trace_in_check posInCheck threadSample zeroScores rfl⟩

/-- C4: on every not-in-check position the trace zeroes the score table
and the neural evaluation path writes no term entry, so every per-term,
per-color entry of the resulting table — material, imbalance, the
piece-type rows, mobility, king safety, threats, passed, space, winnable,
total — is the zero score. -/
theorem C4_trace_terms_zero (p : Position) (t : ThreadState) (s : ScoresTable)
    (i : Fin 16) (c : Color) (h : p.checkers = false) :
    (traceRun p t s).2.2 i c = SCORE_ZERO := by
  simp [traceRun, h, zeroScores]

/-- C4 (witness): the threat entry for White after tracing the concrete
two-king position, starting from an arbitrary nonzero table entry. -/
theorem C4_trace_terms_zero_witness :
    posKings.checkers = false ∧
      (traceRun posKings threadSample (fun _ _ => ⟨5, 5⟩)).2.2 THREAT Color.white
        = SCORE_ZERO :=
  ⟨rfl, C4_trace_terms_zero posKings threadSample (fun _ _ => ⟨5, 5⟩) THREAT Color.white rfl⟩

/-- C5: evaluate is a deterministic pure function of the position
snapshot — two positions agreeing on board, side to move, in-check status
and neural output evaluate to the identical integer. -/
theorem C5_deterministic (p q : Position)
    (hb : p.board = q.board) (hs : p.sideToMove = q.sideToMove)
    (hc : p.checkers = q.checkers) (hn : p.nnueOutput = q.nnueOutput) :
    evaluate p = evaluate q := by
  have hpq : p = q := by
    cases p
    cases q
    simp_all
  rw [hpq]

/-- C5 (witness): two separately written but field-equal snapshots of the
two-king position evaluate identically. -/
theorem C5_deterministic_witness :
    posKings.board = posKingsCopy.board
    ∧ posKings.sideToMove = posKingsCopy.sideToMove
    ∧ posKings.checkers = posKingsCopy.checkers
    ∧ posKings.nnueOutput = posKingsCopy.nnueOutput
    ∧ evaluate posKings = evaluate posKingsCopy :=
  ⟨rfl, rfl, rfl, rfl, C5_deterministic posKings posKingsCopy rfl rfl rfl rfl⟩

/-- C6 (counterexample): for the concrete mirror pair posMirrorSrc (White
to move, neural output 100) and posMirrorDst (its color-and-rank mirror,
Black to move, neural output -100), both sides' tempo-excluded evaluations
equal 100, so they are not negations of each other: the claimed identity
evaluate(p') - Tempo = -(evaluate(p) - Tempo) fails. -/
theorem C6_counterexample :
    isMirrorPair posMirrorSrc posMirrorDst
    ∧ posMirrorSrc.checkers = false
    ∧ posMirrorDst.nnueOutput = -posMirrorSrc.nnueOutput
    ∧ evaluate posMirrorDst - Tempo ≠ -(evaluate posMirrorSrc - Tempo) :=
  ⟨⟨rfl, rfl, rfl⟩, rfl, by decide, by decide⟩

/-- C6 (amended): for a color-and-rank mirror pair whose White-relative
neural outputs are negations of each other and lie within the clamp bound,
the side-to-move-relative scores agree once tempo is excluded:
evaluate(p') - Tempo = evaluate(p) - Tempo. (It is the White-relative
internal values, not the side-to-move-relative results, that are negated.) -/
theorem C6_mirror_equal (p q : Position) (hm : isMirrorPair p q)
    (hc : p.checkers = false) (hn : q.nnueOutput = -p.nnueOutput)
    (hlo : -30000 ≤ p.nnueOutput) (hhi : p.nnueOutput ≤ 30000) :
    evaluate q - Tempo = evaluate p - Tempo := by
  obtain ⟨-, hs, -⟩ := hm
  cases hps : p.sideToMove <;>
    simp only [evaluate, value, clampedValue, hs, hps, hn, Color.flip,
      reduceCtorEq, if_false, if_true, min_def] <;>
    split_ifs <;> omega

/-- C6 (witness): the amended mirror identity at the concrete pair with
neural outputs 100 and -100; both tempo-excluded scores equal 100. -/
theorem C6_mirror_equal_witness :
    isMirrorPair posMirrorSrc posMirrorDst
    ∧ posMirrorSrc.checkers = false
    ∧ posMirrorDst.nnueOutput = -posMirrorSrc.nnueOutput
    ∧ (-30000 : Int) ≤ posMirrorSrc.nnueOutput
    ∧ posMirrorSrc.nnueOutput ≤ 30000
    ∧ evaluate posMirrorDst - Tempo = evaluate posMirrorSrc - Tempo :=
  ⟨⟨rfl, rfl, rfl⟩, rfl, by decide, by decide, by decide,
    C6_mirror_equal posMirrorSrc posMirrorDst ⟨rfl, rfl, rfl⟩ rfl (by decide)
      (by decide) (by decide)⟩

/-- C7: evaluate mutates no external state — it returns the thread state
unchanged — and trace on a not-in-check position performs exactly one
external mutation: it resets the calling thread's dynamic contempt to the
zero score before evaluating, leaving every other thread datum unchanged. -/
theorem C7_frame (p : Position) (t : ThreadState) (s : ScoresTable)
    (h : p.checkers = false) :
    (evaluateRun p t).2 = t
    ∧ ((traceRun p t s).2.1).contempt = SCORE_ZERO
    ∧ ((traceRun p t s).2.1).otherData = t.otherData := by
  refine ⟨rfl, ?_, ?_⟩ <;> simp [traceRun, h]

/-- C7 (witness): the frame property at the concrete two-king position and
a thread state with nonzero contempt and nonzero other data. -/
theorem C7_frame_witness :
    posKings.checkers = false
    ∧ (evaluateRun posKings threadSample).2 = threadSample
    ∧ ((traceRun posKings threadSample zeroScores).2.1).contempt = SCORE_ZERO
    ∧ ((traceRun posKings threadSample zeroScores).2.1).otherData
        = threadSample.otherData :=
  ⟨rfl, C7_frame posKings threadSample zeroScores rfl⟩

/-- C8: not being in check is the sole precondition of the numeric path —
under it the internal assertion passes, the error branch is unreachable,
and the evaluation is total, producing the integer value. -/
theorem C8_total_not_in_check (p : Position) (h : p.checkers = false) :
    valueAsserted p = some (evaluate p) := by
  simp [valueAsserted, h, evaluate]

/-- C8 (witness): totality of the asserted numeric path at the concrete
two-king position. -/
theorem C8_total_not_in_check_witness :
    posKings.checkers = false ∧ valueAsserted posKings = some (evaluate posKings) :=
  ⟨rfl, C8_total_not_in_check posKings rfl⟩

/-- C9 (counterexample): at the concrete hanging-queen position — White
rook a1 attacking the undefended Black queen a8, White to move, not in
check — the threat-term entry produced by the trace is the zero score, so
it is not a nonzero contribution equal to the rook-vs-queen table entry:
the classical threat machinery is never executed. -/
theorem C9_counterexample :
    posHangingQueen.checkers = false
    ∧ hangingQueenFor Color.white posHangingQueen = true
    ∧ ¬((traceRun posHangingQueen threadSample zeroScores).2.2 THREAT Color.white
          ≠ SCORE_ZERO
        ∧ (traceRun posHangingQueen threadSample zeroScores).2.2 THREAT Color.white
          = ThreatByRook PieceType.queen) := by
  refine ⟨rfl, by decide, ?_⟩
  rintro ⟨hne, -⟩
  exact hne rfl

/-- C9 (amended): the rook-vs-queen entry of the ThreatByRook table is
S(58, 41) and nonzero, but in this code the attacking side's threat-term
contribution is the zero score even on a hanging-queen position, because
the evaluation delegates wholly to the neural evaluator and no threat
evaluation is ever performed. -/
theorem C9_threat_term_zero (p : Position) (t : ThreadState) (s : ScoresTable)
    (h : p.checkers = false) (hq : hangingQueenFor Color.white p = true) :
    (traceRun p t s).2.2 THREAT Color.white = SCORE_ZERO
    ∧ ThreatByRook PieceType.queen = ⟨58, 41⟩
    ∧ ThreatByRook PieceType.queen ≠ SCORE_ZERO := by
  refine ⟨by simp [traceRun, h, zeroScores], rfl, by decide⟩

/-- C9 (witness): the amended statement at the concrete hanging-queen
position. -/
theorem C9_threat_term_zero_witness :
    posHangingQueen.checkers = false
    ∧ hangingQueenFor Color.white posHangingQueen = true
    ∧ (traceRun posHangingQueen threadSample zeroScores).2.2 THREAT Color.white
        = SCORE_ZERO
    ∧ ThreatByRook PieceType.queen = ⟨58, 41⟩
    ∧ ThreatByRook PieceType.queen ≠ SCORE_ZERO :=
  ⟨rfl, by decide,
    C9_threat_term_zero posHangingQueen threadSample zeroScores rfl (by decide)⟩

/-- C10: noninterference of the classical machinery — any two not-in-check
positions agreeing on the neural output and the side to move evaluate to
the same integer, whatever their boards: no piece placement, attack
configuration or classical table influences the result. -/
theorem C10_noninterference (p q : Position)
    (hp : p.checkers = false) (hq : q.checkers = false)
    (hn : p.nnueOutput = q.nnueOutput) (hs : p.sideToMove = q.sideToMove) :
    evaluate p = evaluate q := by
  simp [evaluate, value, clampedValue, hn, hs]

/-- C10 (witness): the quiet two-king position and the hanging-queen
position share neural output 0 and side to move White and evaluate
identically despite entirely different boards. -/
theorem C10_noninterference_witness :
    posKings.checkers = false
    ∧ posHangingQueen.checkers = false
    ∧ posKings.nnueOutput = posHangingQueen.nnueOutput
    ∧ posKings.sideToMove = posHangingQueen.sideToMove
    ∧ evaluate posKings = evaluate posHangingQueen :=
  ⟨rfl, rfl, rfl, rfl, C10_noninterference posKings posHangingQueen rfl rfl rfl rfl⟩

end Smallfish
